import Mathlib

/-!
Shallow embedding of the security mediation server (src/server.py).

The embedding covers the session taint tracker (the global `IS_TAINTED`
boolean), the audit log store (`log_event` and the JSON log file with
its failure modes), and the three mediation tools
`analyze_incoming_content`, `scan_output_data` and
`reset_security_session`.  The two llm-guard scanners are opaque scoring
oracles passed in as function parameters; the `config.json` dictionary
only influences how those scanners are constructed, which is external to
the tool bodies, so operations that have `CONFIG` in scope but never
read it take a `Config` argument they do not consult.  Timestamps are
supplied as an explicit parameter of each call.  Risk scores are
modelled as rationals.
-/

/-- A JSON-like value for the `details` payloads of events and results:
either a plain string or a flat object of string fields, mirroring the
Python dicts and strings built in the source. -/
inductive Json where
  | str (s : String)
  | obj (fields : List (String × String))
deriving DecidableEq, Repr

/-- One audit record, with the five fields built by `log_event` in the
source: timestamp, event_type, details, risk_score, action. -/
structure SecurityEvent where
  timestamp : String
  event_type : String
  details : Json
  risk_score : Rat
  action : String
deriving DecidableEq, Repr

/-- The persisted audit store as seen at append time: a missing file, an
empty file, unparseable contents, or a parsed list of events. -/
inductive StoreContent where
  | missing
  | empty
  | corrupt
  | ok (events : List SecurityEvent)
deriving DecidableEq, Repr

/-- The audit append of `log_event`: a read-modify-write transaction on
the JSON log file.  `ioFail` models an `IOError` raised while an
existing non-empty file is opened, read or rewritten.  A missing file
raises `FileNotFoundError` and an empty or unparseable file raises
`JSONDecodeError`; in the handler, those cases (and an `IOError` on an
empty file, via the `os.path.getsize(LOG_FILE) == 0` test) rewrite the
store as a list holding only the new event, while any other `IOError` is
logged to stderr and leaves the store as it was. -/
def log_event (ev : SecurityEvent) (store : StoreContent) (ioFail : Bool) : StoreContent :=
  match store with
  | .missing => .ok [ev]
  | .empty => .ok [ev]
  | .corrupt => if ioFail then .corrupt else .ok [ev]
  | .ok evs => if ioFail then .ok evs else .ok (evs ++ [ev])

/-- The mutable process state: the global `IS_TAINTED` flag and the
audit log file. -/
structure ServerState where
  is_tainted : Bool
  log : StoreContent
deriving DecidableEq, Repr

/-- The state at process start: `IS_TAINTED = False`, and the log file
initialized to the empty list when missing. -/
def initialState : ServerState := ⟨false, .ok []⟩

/-- A value of the parsed `config.json` dictionary. -/
inductive ConfigVal where
  | bool (b : Bool)
  | num (q : Rat)
  | str (s : String)
deriving DecidableEq, Repr

/-- The parsed `config.json` dictionary: an open map from string keys to
values (the source reads it with `json.load` and `dict.get`). -/
def Config : Type := List (String × ConfigVal)

/-- Lookup of a key in the configuration dictionary, as `CONFIG.get`. -/
def Config.get (cfg : Config) (k : String) : Option ConfigVal :=
  (cfg.find? (fun p => p.1 == k)).map (fun p => p.2)

/-- The prompt-injection scanner `prompt_injection_scanner.scan`:
returns (sanitized content, is_valid, risk_score).  The configured
threshold and custom patterns are baked into the scanner object at
construction, hence into this function. -/
def InjectionOracle : Type := String → String × Bool × Rat

/-- The sensitive-data scanner `pii_scanner.scan`: returns (sanitized
output, is_valid, risk_score).  The configured entity set, redaction
flag and threshold are baked into the scanner object at construction,
hence into this function. -/
def SensitiveOracle : Type := String → String × Bool × Rat

/-- The structured result of `analyze_incoming_content`. -/
structure IncomingResult where
  status : String
  action : String
  is_valid : Bool
  risk_score : Rat
  details : Json
deriving DecidableEq, Repr

/-- The structured result of `scan_output_data`.  The denied branch of
the source returns no `sanitized_data` key, hence the `Option`. -/
structure OutgoingResult where
  status : String
  action : String
  risk_score : Rat
  sanitized_data : Option String
  details : Json
deriving DecidableEq, Repr

/-- The structured result of `reset_security_session`. -/
structure AdminResult where
  status : String
  message : String
deriving DecidableEq, Repr

/-- Everything one call of `analyze_incoming_content` produces: its
return value, the updated process state, and whether the injection
oracle was invoked during the call. -/
structure AnalyzeOut where
  result : IncomingResult
  state : ServerState
  oracle_invoked : Bool
deriving DecidableEq, Repr

/-- Everything one call of `scan_output_data` produces: its return
value, the updated process state, and whether the sensitive-data oracle
was invoked during the call. -/
structure ScanOut where
  result : OutgoingResult
  state : ServerState
  pii_invoked : Bool
deriving DecidableEq, Repr

/-- Everything one call of `reset_security_session` produces. -/
structure ResetOut where
  result : AdminResult
  state : ServerState
deriving DecidableEq, Repr

/-- The tool `analyze_incoming_content`: scans inbound text for prompt
injection.  The tool body reads no configuration at call time (only the
scanner construction did), so the `CONFIG` in scope is unused here. -/
def analyze_incoming_content (_cfg : Config) (injO : InjectionOracle)
    (content_to_scan : String) (st : ServerState) (ioFail : Bool) (ts : String) :
    AnalyzeOut :=
  let scanned := injO content_to_scan
  let is_valid := scanned.2.1
  let risk_score := scanned.2.2
  if is_valid = false then
    let details : Json := .obj [("original_content", content_to_scan),
      ("reason", "High-risk prompt injection attempt detected.")]
    let ev : SecurityEvent := ⟨ts, "INJECTION_DETECTED", details, risk_score, "BLOCKED_INPUT"⟩
    { result := ⟨"SECURITY_ALERT", "BLOCKED_INPUT", false, risk_score, details⟩,
      state := ⟨true, log_event ev st.log ioFail⟩,
      oracle_invoked := true }
  else
    let details : Json := .obj [("scanned_content", content_to_scan)]
    let ev : SecurityEvent := ⟨ts, "INFO", details, risk_score, "ALLOWED_INPUT"⟩
    { result := ⟨"SUCCESS", "ALLOWED_INPUT", true, risk_score,
        .str "Content scanned and verified."⟩,
      state := ⟨st.is_tainted, log_event ev st.log ioFail⟩,
      oracle_invoked := true }

/-- The fixed result returned by `scan_output_data` when the session is
tainted. -/
def deniedResult : OutgoingResult :=
  ⟨"ACCESS_DENIED", "DENIED_ACCESS", 1, none,
    .obj [("reason", "Access to data denied because session is tainted.")]⟩

/-- The tool `scan_output_data`: scans outbound text for sensitive PII,
unless the session is tainted, in which case it denies without invoking
the scanner. -/
def scan_output_data (senO : SensitiveOracle) (data_to_scan : String)
    (st : ServerState) (ioFail : Bool) (ts : String) : ScanOut :=
  if st.is_tainted then
    let ev : SecurityEvent := ⟨ts, "ACCESS_DENIED",
      .obj [("reason", "Access to data denied because session is tainted.")],
      1, "DENIED_ACCESS"⟩
    { result := deniedResult,
      state := ⟨st.is_tainted, log_event ev st.log ioFail⟩,
      pii_invoked := false }
  else
    let scanned := senO data_to_scan
    let sanitized_output := scanned.1
    let is_valid := scanned.2.1
    let risk_score := scanned.2.2
    if is_valid = false then
      let details : Json := .obj [("original_data", data_to_scan),
        ("redacted_data", sanitized_output),
        ("reason", "Sensitive PII detected and redacted.")]
      let ev : SecurityEvent := ⟨ts, "PII_REDACTED", details, risk_score, "REDACTED_OUTPUT"⟩
      { result := ⟨"SUCCESS_REDACTED", "REDACTED_OUTPUT", risk_score,
          some sanitized_output, details⟩,
        state := ⟨st.is_tainted, log_event ev st.log ioFail⟩,
        pii_invoked := true }
    else
      let ev : SecurityEvent := ⟨ts, "INFO", .obj [("data", data_to_scan)], 0, "ALLOWED_OUTPUT"⟩
      { result := ⟨"SUCCESS", "ALLOWED_OUTPUT", 0, some data_to_scan,
          .str "Data scanned and verified."⟩,
        state := ⟨st.is_tainted, log_event ev st.log ioFail⟩,
        pii_invoked := true }

/-- The audit record appended by `reset_security_session`. -/
def resetEvent (ts : String) : SecurityEvent :=
  ⟨ts, "ADMIN_ACTION", .obj [("action", "Session reset")], 0, "SESSION_RESET"⟩

/-- The tool `reset_security_session`: unconditionally clears the taint
flag, logs an `ADMIN_ACTION` record and reports success. -/
def reset_security_session (st : ServerState) (ioFail : Bool) (ts : String) : ResetOut :=
  { result := ⟨"SUCCESS", "Security session has been reset."⟩,
    state := ⟨false, log_event (resetEvent ts) st.log ioFail⟩ }

/-- One invocation of a mediation tool, as named in the tool-call
surface. -/
inductive Op where
  | analyze (content : String)
  | scanOut (data : String)
  | reset
deriving DecidableEq, Repr

/-- One step of a call sequence: the operation invoked together with
the per-call environment (whether the audit append suffers an I/O
failure, and the timestamp taken during the call). -/
structure StepIn where
  op : Op
  ioFail : Bool
  ts : String
deriving DecidableEq, Repr

/-- The result returned to the caller by one step, tagged by which tool
produced it. -/
inductive OpResult where
  | incoming (r : IncomingResult)
  | outgoing (r : OutgoingResult)
  | admin (r : AdminResult)
deriving DecidableEq, Repr

/-- Everything one step produces: the caller-visible result, the updated
process state, and whether the sensitive-data oracle was invoked. -/
structure StepOut where
  result : OpResult
  state : ServerState
  pii_invoked : Bool
deriving DecidableEq, Repr

/-- Dispatch of one tool call against the current process state.  The
scoring oracles are fixed for the process (deterministic given identical
configuration and input). -/
def step (cfg : Config) (injO : InjectionOracle) (senO : SensitiveOracle)
    (st : ServerState) (i : StepIn) : StepOut :=
  match i.op with
  | .analyze c =>
    let o := analyze_incoming_content cfg injO c st i.ioFail i.ts
    ⟨.incoming o.result, o.state, false⟩
  | .scanOut d =>
    let o := scan_output_data senO d st i.ioFail i.ts
    ⟨.outgoing o.result, o.state, o.pii_invoked⟩
  | .reset =>
    let o := reset_security_session st i.ioFail i.ts
    ⟨.admin o.result, o.state, false⟩

/-- Execution of a sequence of tool calls, threading the process
state. -/
def run (cfg : Config) (injO : InjectionOracle) (senO : SensitiveOracle) :
    List StepIn → ServerState → ServerState
  | [], st => st
  | i :: l, st => run cfg injO senO l (step cfg injO senO st i).state

/-! ## Helper lemmas -/

/-- An `analyze_incoming_content` call whose result carries action
`BLOCKED_INPUT` came from the invalid branch, which sets the taint
flag. -/
theorem analyze_blocked_taints (cfg : Config) (injO : InjectionOracle)
    (c : String) (st : ServerState) (f : Bool) (ts : String)
    (h : (analyze_incoming_content cfg injO c st f ts).result.action = "BLOCKED_INPUT") :
    (analyze_incoming_content cfg injO c st f ts).state.is_tainted = true := by
  unfold analyze_incoming_content at h ⊢
  by_cases hv : (injO c).2.1 = false
  · simp [hv]
  · simp [hv] at h

/-- No operation other than `reset_security_session` clears the taint
flag: a tainted state stays tainted across any non-reset step. -/
theorem step_preserves_taint (cfg : Config) (injO : InjectionOracle)
    (senO : SensitiveOracle) (st : ServerState) (i : StepIn)
    (ht : st.is_tainted = true) (hr : i.op ≠ Op.reset) :
    (step cfg injO senO st i).state.is_tainted = true := by
  cases hi : i.op with
  | analyze c =>
    simp only [step, hi]
    unfold analyze_incoming_content
    by_cases hv : (injO c).2.1 = false <;> simp [hv, ht]
  | scanOut d =>
    simp only [step, hi]
    unfold scan_output_data
    by_cases hv : (senO d).2.1 = false <;> simp [ht, hv]
  | reset => exact absurd hi hr

/-- A tainted state stays tainted across any reset-free call
sequence. -/
theorem run_preserves_taint (cfg : Config) (injO : InjectionOracle)
    (senO : SensitiveOracle) (l : List StepIn) (st : ServerState)
    (ht : st.is_tainted = true) (hl : ∀ s ∈ l, s.op ≠ Op.reset) :
    (run cfg injO senO l st).is_tainted = true := by
  induction l generalizing st with
  | nil => simpa [run] using ht
  | cons a l ih =>
    simp only [run]
    exact ih _ (step_preserves_taint cfg injO senO st a ht (hl a (by simp)))
      (fun s hs => hl s (by simp [hs]))

/-- On a tainted state, `scan_output_data` returns the fixed denial
result and does not invoke the sensitive-data oracle. -/
theorem scan_tainted_denies (senO : SensitiveOracle) (d : String)
    (st : ServerState) (f : Bool) (ts : String) (ht : st.is_tainted = true) :
    (scan_output_data senO d st f ts).result = deniedResult ∧
    (scan_output_data senO d st f ts).pii_invoked = false := by
  unfold scan_output_data
  simp [ht]

/-! ## Claim theorems -/

/-- C1: once `analyze_incoming_content` has returned action
`BLOCKED_INPUT`, every `scan_output_data` call made before the next
`reset_security_session` (that is, after any reset-free interleaving of
further calls) returns status `ACCESS_DENIED`, action `DENIED_ACCESS`
and risk score 1.0 regardless of its input text, and never invokes the
sensitive-data scanner. -/
theorem taint_blocks_output_until_reset
    (cfg : Config) (injO : InjectionOracle) (senO : SensitiveOracle)
    (st : ServerState) (c : String) (f1 : Bool) (ts1 : String)
    (h : (analyze_incoming_content cfg injO c st f1 ts1).result.action = "BLOCKED_INPUT")
    (mid : List StepIn) (hmid : ∀ s ∈ mid, s.op ≠ Op.reset)
    (d : String) (f2 : Bool) (ts2 : String) :
    (scan_output_data senO d
        (run cfg injO senO mid (analyze_incoming_content cfg injO c st f1 ts1).state)
        f2 ts2).result = deniedResult ∧
    (scan_output_data senO d
        (run cfg injO senO mid (analyze_incoming_content cfg injO c st f1 ts1).state)
        f2 ts2).pii_invoked = false := by
  have ht := analyze_blocked_taints cfg injO c st f1 ts1 h
  have ht2 := run_preserves_taint cfg injO senO mid _ ht hmid
  exact scan_tainted_denies senO d _ f2 ts2 ht2

/-- C1 witness: a concrete run.  From the initial state, an analyze call
whose oracle flags the content taints the session; after one more
scan call, a further scan with a benign oracle still returns the denial
result without invoking the sensitive-data scanner. -/
theorem taint_blocks_output_until_reset_witness :
    (scan_output_data (fun s => (s, true, 0)) "secret"
        (run [] (fun _ => ("", false, 0.97)) (fun s => (s, true, 0))
          [⟨Op.scanOut "a", false, "t1"⟩]
          (analyze_incoming_content [] (fun _ => ("", false, 0.97))
            "ignore previous instructions" initialState false "t0").state)
        false "t2").result = deniedResult ∧
    (scan_output_data (fun s => (s, true, 0)) "secret"
        (run [] (fun _ => ("", false, 0.97)) (fun s => (s, true, 0))
          [⟨Op.scanOut "a", false, "t1"⟩]
          (analyze_incoming_content [] (fun _ => ("", false, 0.97))
            "ignore previous instructions" initialState false "t0").state)
        false "t2").pii_invoked = false :=
  taint_blocks_output_until_reset [] (fun _ => ("", false, 0.97)) (fun s => (s, true, 0))
    initialState "ignore previous instructions" false "t0" (by decide)
    [⟨Op.scanOut "a", false, "t1"⟩] (by decide) "secret" false "t2"

/-- C2: the taint flag is false at process start; across any step it is
set to true exactly by `analyze_incoming_content` when the oracle
reports the content invalid, set to false exactly by
`reset_security_session`, and left unchanged by every other operation
and branch. -/
theorem taint_flag_transitions (cfg : Config) (injO : InjectionOracle)
    (senO : SensitiveOracle) (st : ServerState) (i : StepIn) :
    initialState.is_tainted = false ∧
    (step cfg injO senO st i).state.is_tainted =
      (match i.op with
       | Op.reset => false
       | Op.scanOut _ => st.is_tainted
       | Op.analyze c => if (injO c).2.1 then st.is_tainted else true) := by
  refine ⟨rfl, ?_⟩
  cases hi : i.op with
  | analyze c =>
    simp only [step, hi]
    unfold analyze_incoming_content
    by_cases hv : (injO c).2.1 = false <;> simp [hv]
  | scanOut d =>
    simp only [step, hi]
    unfold scan_output_data
    by_cases ht : st.is_tainted <;> by_cases hv : (senO d).2.1 = false <;> simp [ht, hv]
  | reset => simp [step, hi, reset_security_session]

/-- C3: when the injection oracle reports the content invalid with score
s, `analyze_incoming_content` sets the taint flag, appends exactly one
`INJECTION_DETECTED` / `BLOCKED_INPUT` event carrying score s and the
reason and original content, and returns a `SECURITY_ALERT` /
`BLOCKED_INPUT` result with `is_valid = false` and risk score s. -/
theorem analyze_detects_injection (cfg : Config) (injO : InjectionOracle)
    (c ts sc : String) (t : Bool) (l : List SecurityEvent) (s : Rat)
    (h : injO c = (sc, false, s)) :
    analyze_incoming_content cfg injO c ⟨t, .ok l⟩ false ts =
      { result := ⟨"SECURITY_ALERT", "BLOCKED_INPUT", false, s,
          .obj [("original_content", c),
            ("reason", "High-risk prompt injection attempt detected.")]⟩,
        state := ⟨true, .ok (l ++ [⟨ts, "INJECTION_DETECTED",
          .obj [("original_content", c),
            ("reason", "High-risk prompt injection attempt detected.")],
          s, "BLOCKED_INPUT"⟩])⟩,
        oracle_invoked := true } := by
  unfold analyze_incoming_content
  simp [h, log_event]

/-- C3 witness: Scenario B with the oracle reporting invalid at score
0.97 on a clean session with an empty log. -/
theorem analyze_detects_injection_witness :
    analyze_incoming_content [] (fun _ => ("", false, 0.97))
        "ignore previous instructions..." ⟨false, .ok []⟩ false "t0" =
      { result := ⟨"SECURITY_ALERT", "BLOCKED_INPUT", false, 0.97,
          .obj [("original_content", "ignore previous instructions..."),
            ("reason", "High-risk prompt injection attempt detected.")]⟩,
        state := ⟨true, .ok [⟨"t0", "INJECTION_DETECTED",
          .obj [("original_content", "ignore previous instructions..."),
            ("reason", "High-risk prompt injection attempt detected.")],
          0.97, "BLOCKED_INPUT"⟩]⟩,
        oracle_invoked := true } :=
  analyze_detects_injection [] (fun _ => ("", false, 0.97))
    "ignore previous instructions..." "t0" "" false [] 0.97 rfl

/-- A configuration whose dictionary disables the injection scanner, the
situation the config-disable claim quantifies over. -/
def cfgScannerDisabled : Config := [("enable_prompt_injection_scanner", .bool false)]

/-- C4 counterexample: under a configuration that disables the injection
scanner, `analyze_incoming_content` still invokes the injection oracle,
and with an oracle reporting invalid at score 0.97 it returns
`is_valid = false` with risk score 0.97 rather than treating the content
as valid with score 0.0. -/
theorem analyze_ignores_disable_counterexample :
    cfgScannerDisabled.get "enable_prompt_injection_scanner" = some (.bool false) ∧
    (analyze_incoming_content cfgScannerDisabled (fun _ => ("", false, 0.97))
        "ignore previous instructions" initialState false "t0").oracle_invoked = true ∧
    (analyze_incoming_content cfgScannerDisabled (fun _ => ("", false, 0.97))
        "ignore previous instructions" initialState false "t0").result.is_valid = false ∧
    (analyze_incoming_content cfgScannerDisabled (fun _ => ("", false, 0.97))
        "ignore previous instructions" initialState false "t0").result.risk_score = 0.97 ∧
    (0.97 : Rat) ≠ 0 := by
  refine ⟨rfl, rfl, rfl, rfl, by norm_num⟩

/-- C4 amended: `analyze_incoming_content` reads no configuration at
call time — it invokes the injection oracle on every call, and its full
outcome is identical under any two configurations, including one that
sets `enable_prompt_injection_scanner` to false. -/
theorem analyze_independent_of_config (cfg1 cfg2 : Config)
    (injO : InjectionOracle) (c : String) (st : ServerState)
    (f : Bool) (ts : String) :
    (analyze_incoming_content cfg1 injO c st f ts).oracle_invoked = true ∧
    analyze_incoming_content cfg1 injO c st f ts =
      analyze_incoming_content cfg2 injO c st f ts := by
  constructor
  · unfold analyze_incoming_content
    by_cases hv : (injO c).2.1 = false <;> simp [hv]
  · rfl

/-- C5: on a clean session, when the sensitive-data oracle reports the
data invalid with score s and redacted text r, `scan_output_data`
appends exactly one `PII_REDACTED` / `REDACTED_OUTPUT` event carrying
the original data, the redacted data and the reason, and returns a
`SUCCESS_REDACTED` / `REDACTED_OUTPUT` result with risk score s and
sanitized data r. -/
theorem scan_redacts_pii (senO : SensitiveOracle) (d ts r : String)
    (s : Rat) (l : List SecurityEvent) (h : senO d = (r, false, s)) :
    scan_output_data senO d ⟨false, .ok l⟩ false ts =
      { result := ⟨"SUCCESS_REDACTED", "REDACTED_OUTPUT", s, some r,
          .obj [("original_data", d), ("redacted_data", r),
            ("reason", "Sensitive PII detected and redacted.")]⟩,
        state := ⟨false, .ok (l ++ [⟨ts, "PII_REDACTED",
          .obj [("original_data", d), ("redacted_data", r),
            ("reason", "Sensitive PII detected and redacted.")],
          s, "REDACTED_OUTPUT"⟩])⟩,
        pii_invoked := true } := by
  unfold scan_output_data
  simp [h, log_event]

/-- C5 witness: Scenario D, a clean session scanning an SSN with the
oracle reporting invalid at score 0.8 and a redacted text. -/
theorem scan_redacts_pii_witness :
    scan_output_data (fun _ => ("my ssn is [REDACTED]", false, 0.8))
        "my ssn is 123-45-6789" ⟨false, .ok []⟩ false "t0" =
      { result := ⟨"SUCCESS_REDACTED", "REDACTED_OUTPUT", 0.8,
          some "my ssn is [REDACTED]",
          .obj [("original_data", "my ssn is 123-45-6789"),
            ("redacted_data", "my ssn is [REDACTED]"),
            ("reason", "Sensitive PII detected and redacted.")]⟩,
        state := ⟨false, .ok [⟨"t0", "PII_REDACTED",
          .obj [("original_data", "my ssn is 123-45-6789"),
            ("redacted_data", "my ssn is [REDACTED]"),
            ("reason", "Sensitive PII detected and redacted.")],
          0.8, "REDACTED_OUTPUT"⟩]⟩,
        pii_invoked := true } :=
  scan_redacts_pii (fun _ => ("my ssn is [REDACTED]", false, 0.8))
    "my ssn is 123-45-6789" "t0" "my ssn is [REDACTED]" 0.8 [] rfl

/-- C6: on a clean session, when the sensitive-data oracle reports the
data valid (whatever score s it reported), `scan_output_data` returns a
`SUCCESS` / `ALLOWED_OUTPUT` result with risk score 0.0 and the input
passed through unchanged as sanitized data, and appends exactly one
`INFO` / `ALLOWED_OUTPUT` event with risk score 0.0. -/
theorem scan_allows_clean_data (senO : SensitiveOracle) (d ts r : String)
    (s : Rat) (l : List SecurityEvent) (h : senO d = (r, true, s)) :
    scan_output_data senO d ⟨false, .ok l⟩ false ts =
      { result := ⟨"SUCCESS", "ALLOWED_OUTPUT", 0, some d,
          .str "Data scanned and verified."⟩,
        state := ⟨false, .ok (l ++ [⟨ts, "INFO", .obj [("data", d)],
          0, "ALLOWED_OUTPUT"⟩])⟩,
        pii_invoked := true } := by
  unfold scan_output_data
  simp [h, log_event]

/-- C6 witness: a clean session scanning benign data, with the oracle
reporting valid at a nonzero score 0.3; the result and the logged event
still carry risk score 0.0 and the unchanged input. -/
theorem scan_allows_clean_data_witness :
    scan_output_data (fun _ => ("hello", true, 0.3)) "hello"
        ⟨false, .ok []⟩ false "t0" =
      { result := ⟨"SUCCESS", "ALLOWED_OUTPUT", 0, some "hello",
          .str "Data scanned and verified."⟩,
        state := ⟨false, .ok [⟨"t0", "INFO", .obj [("data", "hello")],
          0, "ALLOWED_OUTPUT"⟩]⟩,
        pii_invoked := true } :=
  scan_allows_clean_data (fun _ => ("hello", true, 0.3)) "hello" "t0"
    "hello" 0.3 [] rfl

/-- C7: in every state, `reset_security_session` clears the taint flag,
appends exactly one `ADMIN_ACTION` / `SESSION_RESET` event with risk
score 0.0 and returns status `SUCCESS`; two resets in a row leave the
flag false after each call while appending two `SESSION_RESET` records;
and after any reset, a `scan_output_data` call whose oracle result is
valid returns action `ALLOWED_OUTPUT`, not `DENIED_ACCESS`. -/
theorem reset_clears_taint_idempotently (st st2 : ServerState)
    (f1 f2 : Bool) (ts1 ts2 ts3 ts4 : String) (d : String)
    (senO : SensitiveOracle) (l : List SecurityEvent)
    (hlog : st.log = .ok l) (hvalid : (senO d).2.1 = true) :
    reset_security_session st false ts1 =
      { result := ⟨"SUCCESS", "Security session has been reset."⟩,
        state := ⟨false, .ok (l ++ [resetEvent ts1])⟩ } ∧
    (resetEvent ts1).event_type = "ADMIN_ACTION" ∧
    (resetEvent ts1).action = "SESSION_RESET" ∧
    (resetEvent ts1).risk_score = 0 ∧
    (reset_security_session st false ts1).state.is_tainted = false ∧
    (reset_security_session (reset_security_session st false ts1).state
        false ts2).state =
      ⟨false, .ok (l ++ [resetEvent ts1, resetEvent ts2])⟩ ∧
    (scan_output_data senO d (reset_security_session st2 f1 ts3).state
        f2 ts4).result.action = "ALLOWED_OUTPUT" := by
  refine ⟨?_, rfl, rfl, rfl, rfl, ?_, ?_⟩
  · unfold reset_security_session
    simp [hlog, log_event]
  · unfold reset_security_session
    simp [hlog, log_event]
  · unfold reset_security_session scan_output_data
    simp [hvalid]

/-- C7 witness: a tainted session with an empty log is reset twice and
then passes a benign scan. -/
theorem reset_clears_taint_idempotently_witness :
    reset_security_session ⟨true, .ok []⟩ false "t1" =
      { result := ⟨"SUCCESS", "Security session has been reset."⟩,
        state := ⟨false, .ok ([] ++ [resetEvent "t1"])⟩ } ∧
    (resetEvent "t1").event_type = "ADMIN_ACTION" ∧
    (resetEvent "t1").action = "SESSION_RESET" ∧
    (resetEvent "t1").risk_score = 0 ∧
    (reset_security_session ⟨true, .ok []⟩ false "t1").state.is_tainted = false ∧
    (reset_security_session
        (reset_security_session ⟨true, .ok []⟩ false "t1").state
        false "t2").state =
      ⟨false, .ok ([] ++ [resetEvent "t1", resetEvent "t2"])⟩ ∧
    (scan_output_data (fun s => (s, true, 0)) "hi"
        (reset_security_session ⟨true, .corrupt⟩ true "t3").state
        false "t4").result.action = "ALLOWED_OUTPUT" :=
  reset_clears_taint_idempotently ⟨true, .ok []⟩ ⟨true, .corrupt⟩ true false
    "t1" "t2" "t3" "t4" "hi" (fun s => (s, true, 0)) [] rfl rfl

/-- C8: for each of the three mediation tools, the caller-visible result
does not depend on whether the audit append succeeds, nor on the
contents of the persisted store: the operation returns the same
structured result it would return had the append succeeded. -/
theorem log_failure_never_propagates (cfg : Config)
    (injO : InjectionOracle) (senO : SensitiveOracle) (c d ts : String)
    (t : Bool) (s1 s2 : StoreContent) (f1 f2 : Bool) :
    (analyze_incoming_content cfg injO c ⟨t, s1⟩ f1 ts).result =
      (analyze_incoming_content cfg injO c ⟨t, s2⟩ f2 ts).result ∧
    (scan_output_data senO d ⟨t, s1⟩ f1 ts).result =
      (scan_output_data senO d ⟨t, s2⟩ f2 ts).result ∧
    (reset_security_session ⟨t, s1⟩ f1 ts).result =
      (reset_security_session ⟨t, s2⟩ f2 ts).result := by
  refine ⟨?_, ?_, rfl⟩
  · unfold analyze_incoming_content
    by_cases hv : (injO c).2.1 = false <;> simp [hv]
  · unfold scan_output_data
    by_cases ht : t <;> by_cases hv : (senO d).2.1 = false <;> simp [ht, hv]

/-- C9: when the persisted store is missing, empty or unparseable at
append time and the file transaction itself raises no I/O error, the
append overwrites the store with a store holding exactly the one new
event. -/
theorem corrupt_store_overwritten (ev : SecurityEvent)
    (store : StoreContent)
    (h : store = .missing ∨ store = .empty ∨ store = .corrupt) :
    log_event ev store false = .ok [ev] := by
  rcases h with h | h | h <;> simp [log_event, h]

/-- C9 witness: appending a concrete event to an unparseable store
yields a store holding exactly that event. -/
theorem corrupt_store_overwritten_witness :
    log_event ⟨"t0", "INFO", .str "x", 0, "ALLOWED_INPUT"⟩
        .corrupt false =
      .ok [⟨"t0", "INFO", .str "x", 0, "ALLOWED_INPUT"⟩] :=
  corrupt_store_overwritten ⟨"t0", "INFO", .str "x", 0, "ALLOWED_INPUT"⟩
    .corrupt (Or.inr (Or.inr rfl))

/-- C10: on a tainted session, `scan_output_data` produces the identical
full outcome (result, state and oracle-invocation flag) for any two
input texts and any two sensitive-data oracles; the result is the fixed
denial value with risk score 1.0 and no `sanitized_data` field, and the
sensitive-data oracle is never invoked — with the timestamp shared,
neither the result nor the appended event carries anything from the
input. -/
theorem tainted_denial_leaks_nothing (senO1 senO2 : SensitiveOracle)
    (d1 d2 ts : String) (f : Bool) (store : StoreContent) :
    scan_output_data senO1 d1 ⟨true, store⟩ f ts =
      scan_output_data senO2 d2 ⟨true, store⟩ f ts ∧
    (scan_output_data senO1 d1 ⟨true, store⟩ f ts).result = deniedResult ∧
    (scan_output_data senO1 d1 ⟨true, store⟩ f ts).result.sanitized_data = none ∧
    (scan_output_data senO1 d1 ⟨true, store⟩ f ts).pii_invoked = false := by
  unfold scan_output_data
  simp [deniedResult]
